/-
Verification of the media-files-organizer episode-renaming pipeline
(`media_files_organizer/cli.py`) against its natural-language specification.

The Python functions are shallowly embedded as executable Lean definitions:
 * strings are Lean `String`s (lists of characters);
 * the regular expressions of the filename parser are embedded as explicit
   left-to-right scanners that reproduce `re.search` (leftmost match, greedy
   quantifiers with backtracking) for each concrete pattern of the source;
 * `os.path` helpers (`basename`, `dirname`, `splitext`, `join`) are embedded
   for POSIX paths;
 * exceptions (`ValueError`, `FileNotFoundError`, `IndexError`) become
   explicit result constructors;
 * the interactive `tvshow` flow becomes a pure trace generator: the user's
   confirmation answers, the metadata-fetch result and the filesystem are
   parameters, and the observable actions (warnings, confirmation prompts,
   renames, file writes, image downloads, process exit) are recorded as an
   event list.
-/
import Mathlib

namespace MediaOrg

/-! ## Character classes (ASCII fragments of Python's `\d`, `\w`, `\s`) -/

/-- Python `\d` on the ASCII range. -/
def isDigitCh (c : Char) : Bool := c.isDigit

/-- Numeric value of a digit character. -/
def digitVal (c : Char) : Nat := c.toNat - 48

/-- Python `\w` (word character) on the ASCII range: `[A-Za-z0-9_]`. -/
def isWordCh (c : Char) : Bool := c.isAlphanum || c = '_'

/-- Python `\s` on the ASCII range: space, tab, newline, CR, VT, FF. -/
def isSpaceCh (c : Char) : Bool :=
  c = ' ' || c = '\t' || c = '\n' || c = '\r' || c = '\x0b' || c = '\x0c'

/-! ## `os.path` helpers (POSIX) -/

/-- `os.path.basename`: the component after the last `/`. -/
def basename (s : String) : String :=
  String.mk ((s.data.reverse.takeWhile (fun c => c ≠ '/')).reverse)

/-- `os.path.dirname`: everything before the last `/`, with trailing slashes
stripped unless the head consists only of slashes. -/
def dirname (s : String) : String :=
  let headRev := (s.data.reverse).dropWhile (fun c => c ≠ '/')
  if headRev.isEmpty then ""
  else if headRev.all (fun c => c = '/') then String.mk headRev.reverse
  else String.mk (headRev.dropWhile (fun c => c = '/')).reverse

/-- The extension component of `os.path.splitext`: from the last dot of the
basename, empty when the basename has only leading dots before it. -/
def splitextExt (s : String) : String :=
  let b := (basename s).data
  match b.reverse.findIdx? (fun c => c = '.') with
  | none => ""
  | some r =>
    let i := b.length - 1 - r
    if (b.take i).all (fun c => c = '.') then "" else String.mk (b.drop i)

/-- `os.path.join` for two components (POSIX rules). -/
def pathJoin (dir file : String) : String :=
  if file.data.take 1 = ['/'] then file
  else if dir = "" || dir.data.reverse.take 1 = ['/'] then dir ++ file
  else dir ++ "/" ++ file

/-! ## The sanitizer

`_sanitize_filename` is `re.sub(r'[\/:*?"<>|]', '', filename)`.  Inside the
character class, `\/` is an escaped forward slash, so the class is the eight
characters below; substitution by the empty string deletes exactly the
occurrences of those characters. -/

/-- The characters of the class `[\/:*?"<>|]` of `_sanitize_filename`.
Note that the backslash is not among them: `\/` escapes the slash. -/
def forbidden_chars : List Char := ['/', ':', '*', '?', '"', '<', '>', '|']

/-- Embedding of `MediaFilesOrganizer._sanitize_filename`. -/
def sanitize_filename (s : String) : String :=
  String.mk (s.data.filter (fun c => !forbidden_chars.contains c))

/-! ## Metadata records (`metadata_types.py`) -/

/-- `metadata_types.Actor`. -/
structure Actor where
  name : String
  original_name : Option String
  type : String
  role : String
  photo : Option String
  thumb : Option String

/-- `metadata_types.CrewMember`. -/
structure CrewMember where
  name : String
  original_name : Option String
  type : String
  photo : Option String
  thumb : Option String

/-- `metadata_types.Episode`. -/
structure Episode where
  name : String
  series_name : String
  episode_name : String
  episode_number : Nat
  overview : String
  community_rating : Float
  air_date : String
  still_url : String
  actors : List Actor
  guest_stars : List Actor
  crew : List CrewMember

/-- `metadata_types.Season`. -/
structure Season where
  name : String
  season_name : String
  season_number : Nat
  overview : String
  community_rating : Float
  episode_count : Nat
  release_date : String
  poster_url : String
  episodes : List Episode
  series_name : String
  genres : List String
  actors : List Actor
  crew : List CrewMember

/-- The `status` field of `cli.EpFile`. -/
inductive FileStatus
  | OK
  | ERROR
deriving DecidableEq

/-- `cli.EpFile` (the per-file record built by the parser and mutated by the
matcher and the rename loop). -/
structure EpFile where
  episode_num : Nat
  path : String
  ext : String
  original_filename : String
  new_filename : String
  naked_filename : String
  status : Option FileStatus
  data : Option Episode

/-! ## The filename composer -/

/-- Python's `f"{n:02}"` for a natural number. -/
def pad2 (n : Nat) : String := if n < 10 then "0" ++ toString n else toString n

/-- Embedding of `MediaFilesOrganizer.create_new_episode_filename`.
Returns `(new_filename, naked_filename)`.  `if suffix:` in Python is true
exactly for a non-`None`, non-empty suffix. -/
def create_new_episode_filename (data : Episode) (season : Nat) (ext : String)
    (suffix : Option String) : String × String :=
  let series_name := sanitize_filename data.series_name
  let episode_name := sanitize_filename data.episode_name
  let en := pad2 data.episode_number
  let sn := pad2 season
  let base :=
    match suffix with
    | some sfx =>
      if sfx = "" then series_name ++ ".S" ++ sn ++ "E" ++ en ++ "." ++ episode_name
      else series_name ++ " " ++ sfx ++ ".S" ++ sn ++ "E" ++ en ++ "." ++ episode_name
    | none => series_name ++ ".S" ++ sn ++ "E" ++ en ++ "." ++ episode_name
  (sanitize_filename (base ++ ext), sanitize_filename base)

/-! ## Helper lemmas about the sanitizer -/

theorem count_filter_char (p : Char → Bool) (l : List Char) (c : Char) :
    (l.filter p).count c = if p c then l.count c else 0 := by
  induction l with
  | nil => simp
  | cons x xs ih =>
    by_cases hx : p x = true
    · by_cases hxc : x = c
      · subst hxc
        simp [List.filter_cons, hx, List.count_cons, ih]
      · simp [List.filter_cons, hx, List.count_cons, ih, hxc]
    · by_cases hxc : x = c
      · subst hxc
        simp [List.filter_cons, hx, List.count_cons, ih]
      · simp [List.filter_cons, hx, List.count_cons, ih, hxc]

theorem sanitize_filename_idem (s : String) :
    sanitize_filename (sanitize_filename s) = sanitize_filename s := by
  unfold sanitize_filename
  simp [List.filter_filter]

/-! ## Concrete episode used by the composer example -/

/-- Episode metadata with series name `My Show`, episode name `Pilot`,
episode number 1. -/
def pilotEpisode : Episode :=
  { name := "Pilot", series_name := "My Show", episode_name := "Pilot",
    episode_number := 1, overview := "", community_rating := 0.0,
    air_date := "", still_url := "", actors := [], guest_stars := [], crew := [] }

/-- C6: the composer, given series name `My Show`, episode name `Pilot`,
season 1, episode 1, extension `.mkv` and no suffix, produces exactly
`My Show.S01E01.Pilot.mkv` (and naked filename `My Show.S01E01.Pilot`);
the sanitizer is idempotent, so re-sanitizing the composed result (which is
itself produced by a final sanitizer pass) yields the same string, for this
input and for every input. -/
theorem composer_format_and_idempotence :
    create_new_episode_filename pilotEpisode 1 ".mkv" none =
      ("My Show.S01E01.Pilot.mkv", "My Show.S01E01.Pilot")
    ∧ sanitize_filename "My Show.S01E01.Pilot.mkv" = "My Show.S01E01.Pilot.mkv"
    ∧ (∀ s : String, sanitize_filename (sanitize_filename s) = sanitize_filename s)
    ∧ (∀ (d : Episode) (season : Nat) (ext : String) (suffix : Option String),
        sanitize_filename (create_new_episode_filename d season ext suffix).1 =
          (create_new_episode_filename d season ext suffix).1
        ∧ sanitize_filename (create_new_episode_filename d season ext suffix).2 =
          (create_new_episode_filename d season ext suffix).2) := by
  refine ⟨by decide, by decide, sanitize_filename_idem, ?_⟩
  intro d season ext suffix
  exact ⟨sanitize_filename_idem _, sanitize_filename_idem _⟩

/-- C7 (code bug): the character class of `_sanitize_filename` is
`[\/:*?"<>|]`, in which `\/` is an escaped forward slash, so the backslash
itself is not removed: sanitizing `a\b` returns `a\b`, not the `ab` the
claim requires.  For the remaining eight characters the claim's
characterization does hold: the output's count of every character in the
class is zero, every character outside the class keeps its multiplicity,
and the output is a subsequence of the input (order preserved, nothing else
changed). -/
theorem sanitize_keeps_backslash :
    sanitize_filename "a\\b" = "a\\b"
    ∧ sanitize_filename "a\\b" ≠ "ab"
    ∧ forbidden_chars.contains '\\' = false
    ∧ (∀ (s : String) (c : Char),
        (sanitize_filename s).data.count c =
          if forbidden_chars.contains c then 0 else s.data.count c)
    ∧ (∀ s : String, (sanitize_filename s).data.Sublist s.data) := by
  refine ⟨by decide, by decide, by decide, ?_, ?_⟩
  · intro s c
    unfold sanitize_filename
    rw [show (String.mk (s.data.filter (fun c => !forbidden_chars.contains c))).data
        = s.data.filter (fun c => !forbidden_chars.contains c) from rfl]
    rw [count_filter_char]
    by_cases h : forbidden_chars.contains c = true
    · simp [h]
    · simp [h]
  · intro s
    exact List.filter_sublist _

/-! ## The season regex

`infer_season_from_filenames` scans each basename with
`re.compile(r'(?:S|T)(\d{1,2})E\d{1,2}', re.IGNORECASE)`.
`seasonCapAt` matches `(\d{1,2})E\d{1,2}` directly after an `S`/`T`
(greedy: the two-digit season is tried before the one-digit one);
`seasonSearch` is the leftmost-match search. -/

/-- `S` or `T`, case-insensitively. -/
def isSTCh (c : Char) : Bool := c = 'S' || c = 's' || c = 'T' || c = 't'

/-- `E`, case-insensitively. -/
def isECi (c : Char) : Bool := c = 'E' || c = 'e'

/-- Match `(\d{1,2})E\d{1,2}` (ignore-case `E`) at the head of the list,
returning the captured season value. -/
def seasonCapAt (cs : List Char) : Option Nat :=
  let one : List Char → Option Nat := fun cs =>
    match cs with
    | d1 :: e :: d3 :: _ =>
      if isDigitCh d1 && isECi e && isDigitCh d3 then some (digitVal d1) else none
    | _ => none
  match cs with
  | d1 :: d2 :: e :: d3 :: _ =>
    if isDigitCh d1 && isDigitCh d2 && isECi e && isDigitCh d3 then
      some (digitVal d1 * 10 + digitVal d2)
    else one cs
  | _ => one cs

/-- Leftmost search for `(?:S|T)(\d{1,2})E\d{1,2}` (ignore-case). -/
def seasonSearch : List Char → Option Nat
  | [] => none
  | c :: cs =>
    if isSTCh c then
      match seasonCapAt cs with
      | some n => some n
      | none => seasonSearch cs
    else seasonSearch cs

/-- The season number the season regex extracts from a file's basename
(`season_pattern.search(os.path.basename(file))`). -/
def seasonOf (file : String) : Option Nat := seasonSearch (basename file).data

/-! ## The seven episode-number regexes (`episode_num_patterns`), in source
order.  Each is embedded as a leftmost search reproducing `re.search` with
greedy quantifiers and backtracking for the concrete pattern. -/

/-- Greedy capture of `(\d{1,2})` at the head of the list. -/
def cap12 : List Char → Option Nat
  | d1 :: d2 :: _ =>
    if isDigitCh d1 then
      if isDigitCh d2 then some (digitVal d1 * 10 + digitVal d2) else some (digitVal d1)
    else none
  | [d1] => if isDigitCh d1 then some (digitVal d1) else none
  | [] => none

/-- Pattern 1, `(?:S\d{1,2}E(\d{1,2}))`: match `\d{1,2}E(\d{1,2})` right
after an `S` (two season digits tried before one). -/
def p1At (cs : List Char) : Option Nat :=
  let one : List Char → Option Nat := fun cs =>
    match cs with
    | d1 :: e :: rest => if isDigitCh d1 && e = 'E' then cap12 rest else none
    | _ => none
  match cs with
  | d1 :: d2 :: e :: rest =>
    if isDigitCh d1 && isDigitCh d2 && e = 'E' then
      match cap12 rest with
      | some n => some n
      | none => one cs
    else one cs
  | _ => one cs

/-- Leftmost search for pattern 1. -/
def searchP1 : List Char → Option Nat
  | [] => none
  | c :: cs =>
    if c = 'S' then
      match p1At cs with
      | some n => some n
      | none => searchP1 cs
    else searchP1 cs

/-- For pattern 2, capture `(\d{1,2})\b` at the head of the list (the word
boundary after the digits: next character absent or not a word character). -/
def p2CapAt (cs : List Char) : Option Nat :=
  match cs with
  | d1 :: d2 :: rest =>
    if isDigitCh d1 && isDigitCh d2 && (match rest with | [] => true | x :: _ => !isWordCh x) then
      some (digitVal d1 * 10 + digitVal d2)
    else if isDigitCh d1 && !isWordCh d2 then some (digitVal d1)
    else none
  | [d1] => if isDigitCh d1 then some (digitVal d1) else none
  | [] => none

/-- Pattern 2, `\bE(\d{1,2})\b`: leftmost search; `prevW` records whether the
previous character is a word character (for the boundary before `E`). -/
def searchP2 (prevW : Bool) : List Char → Option Nat
  | [] => none
  | c :: cs =>
    if c = 'E' && !prevW then
      match p2CapAt cs with
      | some n => some n
      | none => searchP2 (isWordCh c) cs
    else searchP2 (isWordCh c) cs

/-- Pattern 3, `Ep\.?(\d{1,2})`: leftmost search for `Ep`, optionally a dot,
then the captured digits.  (When the character after `Ep` is a dot, the
zero-width alternative of `\.?` would restart the capture at the dot itself
and necessarily fail, so consuming the dot is exhaustive.) -/
def searchP3 : List Char → Option Nat
  | 'E' :: 'p' :: cs =>
    (match cs with
     | '.' :: rest =>
       match cap12 rest with
       | some n => some n
       | none => searchP3 ('p' :: cs)
     | _ =>
       match cap12 cs with
       | some n => some n
       | none => searchP3 ('p' :: cs))
  | _ :: cs => searchP3 cs
  | [] => none

/-- Pattern 4, `EP\.?(\d{1,2})`. -/
def searchP4 : List Char → Option Nat
  | 'E' :: 'P' :: cs =>
    (match cs with
     | '.' :: rest =>
       match cap12 rest with
       | some n => some n
       | none => searchP4 ('P' :: cs)
     | _ =>
       match cap12 cs with
       | some n => some n
       | none => searchP4 ('P' :: cs))
  | _ :: cs => searchP4 cs
  | [] => none

/-- Pattern 5, `^\d{1,2}\s+`: anchored at the start; one or two digits
followed by whitespace.  The pattern defines no capture group. -/
def p5Matches (cs : List Char) : Bool :=
  match cs with
  | d1 :: rest =>
    isDigitCh d1 &&
      (match rest with
       | d2 :: rest2 =>
         (isDigitCh d2 && (match rest2 with | w :: _ => isSpaceCh w | [] => false))
           || isSpaceCh d2
       | [] => false)
  | [] => false

/-- For pattern 6, match `(\d{1,2})\b` given the first digit `d1` and the
remainder of the string. -/
def p6CapAt (d1 : Char) (cs : List Char) : Option Nat :=
  match cs with
  | d2 :: rest =>
    if isDigitCh d2 then
      if (match rest with | [] => true | x :: _ => !isWordCh x) then
        some (digitVal d1 * 10 + digitVal d2)
      else none
    else if !isWordCh d2 then some (digitVal d1)
    else none
  | [] => some (digitVal d1)

/-- Pattern 6 (the generic standalone-number fallback), `\b(\d{1,2})\b`:
leftmost search with the boundary-before flag. -/
def searchP6 (prevW : Bool) : List Char → Option Nat
  | [] => none
  | c :: cs =>
    if isDigitCh c && !prevW then
      match p6CapAt c cs with
      | some n => some n
      | none => searchP6 (isWordCh c) cs
    else searchP6 (isWordCh c) cs

/-- For pattern 7, match `(\d{1,2})\s` at the head (after `-\s*`). -/
def p7CapAt (cs : List Char) : Option Nat :=
  match cs with
  | d1 :: d2 :: w :: _ =>
    if isDigitCh d1 && isDigitCh d2 && isSpaceCh w then
      some (digitVal d1 * 10 + digitVal d2)
    else if isDigitCh d1 && isSpaceCh d2 then some (digitVal d1)
    else none
  | [d1, d2] => if isDigitCh d1 && isSpaceCh d2 then some (digitVal d1) else none
  | _ => none

/-- Pattern 7, `-\s*(\d{1,2})\s`: leftmost search for a dash; after the dash
the maximal run of whitespace is skipped (shorter runs of `\s*` would leave
a whitespace character where a digit is required, so they cannot match). -/
def searchP7 : List Char → Option Nat
  | [] => none
  | c :: cs =>
    if c = '-' then
      match p7CapAt (cs.dropWhile isSpaceCh) with
      | some n => some n
      | none => searchP7 cs
    else searchP7 cs

/-! ## Episode-number inference (`infer_episode_number_from_filename`) -/

/-- The outcome of `infer_episode_number_from_filename`: a built `EpFile`,
an uncaught `IndexError` (a pattern matched but has no capture group 1), or
the no-match `ValueError`. -/
inductive EpInfer
  | ok (f : EpFile)
  | indexError
  | valueError

/-- The `EpFile` dictionary built on a successful match. -/
def mkEpFile (n : Nat) (filename : String) : EpFile :=
  { episode_num := n, path := dirname filename, ext := splitextExt filename,
    original_filename := basename filename, naked_filename := "",
    new_filename := "", status := none, data := none }

/-- Embedding of `MediaFilesOrganizer.infer_episode_number_from_filename`:
the seven patterns are tried in order on the whole string it is given and
the first match decides.  Pattern 5 has no capture group, so a first match
by it makes `match.group(1)` raise `IndexError`. -/
def infer_episode_number_from_filename (filename : String) : EpInfer :=
  match searchP1 filename.data with
  | some n => .ok (mkEpFile n filename)
  | none =>
    match searchP2 false filename.data with
    | some n => .ok (mkEpFile n filename)
    | none =>
      match searchP3 filename.data with
      | some n => .ok (mkEpFile n filename)
      | none =>
        match searchP4 filename.data with
        | some n => .ok (mkEpFile n filename)
        | none =>
          if p5Matches filename.data then .indexError
          else
            match searchP6 false filename.data with
            | some n => .ok (mkEpFile n filename)
            | none =>
              match searchP7 filename.data with
              | some n => .ok (mkEpFile n filename)
              | none => .valueError

/-- The same cascade with the last pattern (`-\s*(\d{1,2})\s`, placed after
the generic fallback) removed; used to show that the last rule never
decides an input. -/
def infer_episode_number_without_last_rule (filename : String) : EpInfer :=
  match searchP1 filename.data with
  | some n => .ok (mkEpFile n filename)
  | none =>
    match searchP2 false filename.data with
    | some n => .ok (mkEpFile n filename)
    | none =>
      match searchP3 filename.data with
      | some n => .ok (mkEpFile n filename)
      | none =>
        match searchP4 filename.data with
        | some n => .ok (mkEpFile n filename)
        | none =>
          if p5Matches filename.data then .indexError
          else
            match searchP6 false filename.data with
            | some n => .ok (mkEpFile n filename)
            | none => .valueError

/-! ## Season inference (`infer_season_from_filenames`) -/

/-- The `ValueError` message for mixed seasons. -/
def mixedSeasonsMsg (season current : Nat) (file : String) : String :=
  "Mixed seasons detected in filenames. Found season " ++ toString season ++
    " and " ++ toString current ++ ". Culprit file: " ++ file

/-- The `ValueError` message when no filename matches the season pattern. -/
def seasonNotInferableMsg : String :=
  "Could not infer season from filenames. Ensure filenames follow a pattern like S01E01."

/-- The loop of `infer_season_from_filenames`: `season` is the running value
(`None` until seeded). -/
def inferSeasonGo : Option Nat → List String → Except String Nat
  | season, [] =>
    match season with
    | some s => .ok s
    | none => .error seasonNotInferableMsg
  | season, file :: rest =>
    match seasonOf file with
    | none => inferSeasonGo season rest
    | some current =>
      match season with
      | none => inferSeasonGo (some current) rest
      | some s =>
        if s = current then inferSeasonGo (some s) rest
        else .error (mixedSeasonsMsg s current file)

/-- Embedding of `MediaFilesOrganizer.infer_season_from_filenames`. -/
def infer_season_from_filenames (media_files : List String)
    (season_to_test_against : Option Nat) : Except String Nat :=
  inferSeasonGo season_to_test_against media_files

example : infer_season_from_filenames ["Show.S03E04.mkv"] none = .ok 3 := rfl
example : infer_season_from_filenames ["A.t05e1.mkv"] none = .ok 5 := rfl
example : infer_season_from_filenames ["T12E34"] none = .ok 12 := rfl
example : infer_season_from_filenames ["ST3E4"] none = .ok 3 := rfl
example : infer_season_from_filenames ["S123E4"] none = .error seasonNotInferableMsg := rfl
example : infer_season_from_filenames ["A.S01E01.mkv", "A.S02E01.mkv"] none =
  .error (mixedSeasonsMsg 1 2 "A.S02E01.mkv") := rfl
example : infer_season_from_filenames ["x S05E02.mkv"] (some 5) = .ok 5 := rfl
example : infer_season_from_filenames ["x S06E02.mkv"] (some 5) =
  .error (mixedSeasonsMsg 5 6 "x S06E02.mkv") := rfl

-- Validation of the scanner embeddings against the behaviour of CPython's
-- `re.search` and `os.path` on the same inputs.
example : infer_episode_number_from_filename "Show - Ep.07 (1).mkv" =
  .ok ⟨7, "", ".mkv", "Show - Ep.07 (1).mkv", "", "", none, none⟩ := rfl
example : infer_episode_number_from_filename "12 Pilot.mkv" = .indexError := rfl
example : infer_episode_number_from_filename "/tv/Season 9/Finale.mkv" =
  .ok ⟨9, "/tv/Season 9", ".mkv", "Finale.mkv", "", "", none, none⟩ := rfl
example : infer_episode_number_from_filename "Finale.mkv" = .valueError := rfl
example : infer_episode_number_from_filename "/d/Show.S01E02.mkv" =
  .ok ⟨2, "/d", ".mkv", "Show.S01E02.mkv", "", "", none, none⟩ := rfl
example : searchP6 false "x5 - 7 x".data = some 7 := rfl
example : searchP6 false "a 5 - 7 x".data = some 5 := rfl
example : infer_episode_number_from_filename "Ep.x7" = .valueError := rfl
example : searchP2 false "E07.mkv".data = some 7 := rfl
example : searchP4 "abc EP12.avi".data = some 12 := rfl
example : searchP1 "S1E2".data = some 2 := rfl
example : infer_episode_number_from_filename "S123E4" = .valueError := rfl
example : searchP6 false "99".data = some 99 := rfl
example : searchP6 false "a-12 b".data = some 12 := rfl
example : searchP7 "- 33 x".data = some 33 := rfl
example : infer_episode_number_from_filename "-123 " = .valueError := rfl
example : splitextExt "/a.b/c" = "" := rfl
example : splitextExt "..b" = "" := rfl
example : splitextExt "a.tar.gz" = ".gz" := rfl
example : splitextExt ".bashrc" = "" := rfl
example : dirname "/tv/Season 9/Finale.mkv" = "/tv/Season 9" := rfl
example : dirname "file" = "" := rfl
example : dirname "/x" = "/" := rfl
example : dirname "a//b" = "a" := rfl

/-! ## Lemmas for season inference (claim C1) -/

theorem inferSeasonGo_skip_nonmatching (pre : List String) (exp : Option Nat)
    (rest : List String) (hpre : ∀ p ∈ pre, seasonOf p = none) :
    inferSeasonGo exp (pre ++ rest) = inferSeasonGo exp rest := by
  induction pre with
  | nil => rfl
  | cons p pre ih =>
    have hp : seasonOf p = none := hpre p (List.mem_cons_self p pre)
    have hrest : ∀ q ∈ pre, seasonOf q = none := fun q hq =>
      hpre q (List.mem_cons_of_mem p hq)
    simp only [List.cons_append, inferSeasonGo, hp]
    exact ih hrest

theorem inferSeasonGo_all_agree (files : List String) (s : Nat)
    (h : ∀ f ∈ files, ∀ t, seasonOf f = some t → t = s) :
    inferSeasonGo (some s) files = .ok s := by
  induction files with
  | nil => rfl
  | cons f rest ih =>
    have hrest : ∀ g ∈ rest, ∀ t, seasonOf g = some t → t = s := fun g hg =>
      h g (List.mem_cons_of_mem f hg)
    cases hf : seasonOf f with
    | none =>
      simp only [inferSeasonGo, hf]
      exact ih hrest
    | some t =>
      have ht : t = s := h f (List.mem_cons_self f rest) t hf
      subst ht
      simp only [inferSeasonGo, hf, if_pos rfl]
      exact ih hrest

theorem inferSeasonGo_first_conflict (pre : List String) (c : String)
    (post : List String) (s t : Nat)
    (hpre : ∀ p ∈ pre, seasonOf p = none ∨ seasonOf p = some s)
    (hc : seasonOf c = some t) (hts : t ≠ s) :
    inferSeasonGo (some s) (pre ++ c :: post) = .error (mixedSeasonsMsg s t c) := by
  induction pre with
  | nil =>
    simp only [List.nil_append, inferSeasonGo, hc]
    rw [if_neg (fun h => hts h.symm)]
  | cons p pre ih =>
    have hrest : ∀ q ∈ pre, seasonOf q = none ∨ seasonOf q = some s := fun q hq =>
      hpre q (List.mem_cons_of_mem p hq)
    rcases hpre p (List.mem_cons_self p pre) with hp | hp
    · simp only [List.cons_append, inferSeasonGo, hp]
      exact ih hrest
    · simp only [List.cons_append, inferSeasonGo, hp, if_pos rfl]
      exact ih hrest

theorem inferSeasonGo_conflict_exists (files : List String) (s : Nat)
    (h : ∃ f ∈ files, ∃ t, seasonOf f = some t ∧ t ≠ s) :
    ∃ c t, c ∈ files ∧ seasonOf c = some t ∧ t ≠ s ∧
      inferSeasonGo (some s) files = .error (mixedSeasonsMsg s t c) := by
  induction files with
  | nil => rcases h with ⟨f, hf, _⟩; cases hf
  | cons f rest ih =>
    cases hf : seasonOf f with
    | none =>
      have hrest : ∃ g ∈ rest, ∃ t, seasonOf g = some t ∧ t ≠ s := by
        rcases h with ⟨g, hg, t, hgt, hts⟩
        rcases List.mem_cons.mp hg with hgf | hgr
        · subst hgf; rw [hf] at hgt; cases hgt
        · exact ⟨g, hgr, t, hgt, hts⟩
      rcases ih hrest with ⟨c, t, hcmem, hct, hts, heq⟩
      refine ⟨c, t, List.mem_cons_of_mem f hcmem, hct, hts, ?_⟩
      simpa only [inferSeasonGo, hf] using heq
    | some u =>
      by_cases hus : u = s
      · subst hus
        have hrest : ∃ g ∈ rest, ∃ t, seasonOf g = some t ∧ t ≠ u := by
          rcases h with ⟨g, hg, t, hgt, hts⟩
          rcases List.mem_cons.mp hg with hgf | hgr
          · subst hgf; rw [hf] at hgt
            cases hgt; exact absurd rfl hts
          · exact ⟨g, hgr, t, hgt, hts⟩
        rcases ih hrest with ⟨c, t, hcmem, hct, hts', heq⟩
        refine ⟨c, t, List.mem_cons_of_mem f hcmem, hct, hts', ?_⟩
        simpa only [inferSeasonGo, hf, if_pos rfl] using heq
      · refine ⟨f, u, List.mem_cons_self f rest, hf, hus, ?_⟩
        simp only [inferSeasonGo, hf]
        rw [if_neg (fun hh => hus hh.symm)]

theorem inferSeasonGo_none_of_no_match (files : List String)
    (h : ∀ f ∈ files, seasonOf f = none) :
    inferSeasonGo none files = .error seasonNotInferableMsg := by
  have := inferSeasonGo_skip_nonmatching files none [] h
  simpa using this

/-- C1: season inference over filenames.  (i) Filenames before the first
match contribute nothing, and the first matching filename seeds the running
season, after which the scan continues exactly as if that season had been
supplied.  (ii) With a (seeded or supplied) season, if every matching
filename agrees the result is that season.  (iii) The first filename whose
season differs produces the mixed-seasons `ValueError`, whose message names
the running season, the conflicting season, and the conflicting file.
(iv) In particular, with a supplied expected season, any filename matching a
different season makes the call fail with the mixed-seasons error.  (v) If no
filename matches and no expected season was supplied, the call fails with the
season-not-inferable `ValueError`. -/
theorem season_inference_spec :
    (∀ (pre : List String) (f0 : String) (rest : List String) (s0 : Nat),
      (∀ p ∈ pre, seasonOf p = none) → seasonOf f0 = some s0 →
      infer_season_from_filenames (pre ++ f0 :: rest) none =
        infer_season_from_filenames rest (some s0))
    ∧ (∀ (files : List String) (s : Nat),
      (∀ f ∈ files, ∀ t, seasonOf f = some t → t = s) →
      infer_season_from_filenames files (some s) = .ok s)
    ∧ (∀ (pre : List String) (c : String) (post : List String) (s t : Nat),
      (∀ p ∈ pre, seasonOf p = none ∨ seasonOf p = some s) →
      seasonOf c = some t → t ≠ s →
      infer_season_from_filenames (pre ++ c :: post) (some s) =
        .error (mixedSeasonsMsg s t c))
    ∧ (∀ (files : List String) (s : Nat),
      (∃ f ∈ files, ∃ t, seasonOf f = some t ∧ t ≠ s) →
      ∃ c t, c ∈ files ∧ seasonOf c = some t ∧ t ≠ s ∧
        infer_season_from_filenames files (some s) = .error (mixedSeasonsMsg s t c))
    ∧ (∀ files : List String, (∀ f ∈ files, seasonOf f = none) →
      infer_season_from_filenames files none = .error seasonNotInferableMsg) := by
  refine ⟨?_, inferSeasonGo_all_agree, inferSeasonGo_first_conflict,
    inferSeasonGo_conflict_exists, inferSeasonGo_none_of_no_match⟩
  intro pre f0 rest s0 hpre hf0
  unfold infer_season_from_filenames
  rw [inferSeasonGo_skip_nonmatching pre none (f0 :: rest) hpre]
  simp only [inferSeasonGo, hf0]

/-- Witness for `season_inference_spec` at concrete inputs, including the
spec's own examples: `S05E02` against expected season 5 succeeds with 5,
`S06E02` against expected season 5 fails with the mixed-seasons error, a
mixed `S01`/`S02` batch fails naming the second file, and a batch with no
matching filename and no expected season fails as not inferable. -/
theorem season_inference_spec_witness :
    infer_season_from_filenames ["x.mkv", "A.S03E01.mkv", "A.S03E02.mkv"] none =
      infer_season_from_filenames ["A.S03E02.mkv"] (some 3)
    ∧ infer_season_from_filenames ["x S05E02.mkv"] (some 5) = .ok 5
    ∧ infer_season_from_filenames ["x S06E02.mkv"] (some 5) =
        .error (mixedSeasonsMsg 5 6 "x S06E02.mkv")
    ∧ (∃ c t, c ∈ ["A.S01E01.mkv", "A.S02E01.mkv"] ∧ seasonOf c = some t ∧ t ≠ 1 ∧
        infer_season_from_filenames ["A.S01E01.mkv", "A.S02E01.mkv"] (some 1) =
          .error (mixedSeasonsMsg 1 t c))
    ∧ infer_season_from_filenames ["Finale.mkv"] none = .error seasonNotInferableMsg := by
  refine ⟨?_, ?_, ?_, ?_, ?_⟩
  · exact season_inference_spec.1 ["x.mkv"] "A.S03E01.mkv" ["A.S03E02.mkv"] 3
      (by decide) (by decide)
  · exact season_inference_spec.2.1 ["x S05E02.mkv"] 5 (by decide)
  · exact season_inference_spec.2.2.1 [] "x S06E02.mkv" [] 5 6 (by decide)
      (by decide) (by decide)
  · exact season_inference_spec.2.2.2.1 ["A.S01E01.mkv", "A.S02E01.mkv"] 1
      ⟨"A.S02E01.mkv", by decide, 2, by decide, by decide⟩
  · exact season_inference_spec.2.2.2.2 ["Finale.mkv"] (by decide)

/-! ## Lemmas for episode-rule ordering (claim C2) -/

theorem space_not_digit {c : Char} (h : isSpaceCh c = true) : isDigitCh c = false := by
  simp only [isSpaceCh, Bool.or_eq_true, decide_eq_true_eq] at h
  rcases h with ((((h | h) | h) | h) | h) | h <;> subst h <;> decide

theorem space_not_word {c : Char} (h : isSpaceCh c = true) : isWordCh c = false := by
  simp only [isSpaceCh, Bool.or_eq_true, decide_eq_true_eq] at h
  rcases h with ((((h | h) | h) | h) | h) | h <;> subst h <;> decide

theorem p6CapAt_of_p7CapAt {d1 : Char} {cs : List Char} {n : Nat}
    (_hd : isDigitCh d1 = true) (h : p7CapAt (d1 :: cs) = some n) :
    ∃ m, p6CapAt d1 cs = some m := by
  match cs with
  | [] => simp [p7CapAt] at h
  | [d2] =>
    simp only [p7CapAt] at h
    by_cases h2 : isDigitCh d1 && isSpaceCh d2
    · have hsp : isSpaceCh d2 = true := (Bool.and_eq_true .. ▸ h2).2
      refine ⟨digitVal d1, ?_⟩
      simp [p6CapAt, space_not_digit hsp, space_not_word hsp]
    · rw [if_neg h2] at h; cases h
  | d2 :: w :: rest =>
    simp only [p7CapAt] at h
    by_cases h2 : isDigitCh d1 && isDigitCh d2 && isSpaceCh w
    · have hd2 : isDigitCh d2 = true := by
        have := (Bool.and_eq_true .. ▸ (Bool.and_eq_true .. ▸ h2).1).2
        exact this
      have hw : isSpaceCh w = true := (Bool.and_eq_true .. ▸ h2).2
      refine ⟨digitVal d1 * 10 + digitVal d2, ?_⟩
      simp [p6CapAt, hd2, space_not_word hw]
    · rw [if_neg h2] at h
      by_cases h1 : isDigitCh d1 && isSpaceCh d2
      · have hsp : isSpaceCh d2 = true := (Bool.and_eq_true .. ▸ h1).2
        refine ⟨digitVal d1, ?_⟩
        simp [p6CapAt, space_not_digit hsp, space_not_word hsp]
      · rw [if_neg h1] at h; cases h

theorem p7CapAt_first_digit {cs : List Char} {n : Nat}
    (h : p7CapAt cs = some n) : ∃ d1 rest, cs = d1 :: rest ∧ isDigitCh d1 = true := by
  match cs with
  | [] => simp [p7CapAt] at h
  | [d1] => simp [p7CapAt] at h
  | [d1, d2] =>
    refine ⟨d1, [d2], rfl, ?_⟩
    simp only [p7CapAt] at h
    by_cases h1 : isDigitCh d1 && isSpaceCh d2
    · exact (Bool.and_eq_true .. ▸ h1).1
    · rw [if_neg h1] at h; cases h
  | d1 :: d2 :: w :: rest =>
    refine ⟨d1, d2 :: w :: rest, rfl, ?_⟩
    simp only [p7CapAt] at h
    by_cases h2 : isDigitCh d1 && isDigitCh d2 && isSpaceCh w
    · exact (Bool.and_eq_true .. ▸ (Bool.and_eq_true .. ▸ h2).1).1
    · rw [if_neg h2] at h
      by_cases h1 : isDigitCh d1 && isSpaceCh d2
      · exact (Bool.and_eq_true .. ▸ h1).1
      · rw [if_neg h1] at h; cases h

theorem searchP6_of_p7CapAt_dropWhile (cs : List Char) {n : Nat}
    (h : p7CapAt (cs.dropWhile isSpaceCh) = some n) :
    ∃ m, searchP6 false cs = some m := by
  induction cs with
  | nil => simp [List.dropWhile] at h; simp [p7CapAt] at h
  | cons x xs ih =>
    by_cases hx : isSpaceCh x = true
    · rw [List.dropWhile_cons_of_pos hx] at h
      rcases ih h with ⟨m, hm⟩
      refine ⟨m, ?_⟩
      simp only [searchP6, space_not_digit hx, space_not_word hx, Bool.false_and,
        Bool.false_eq_true, if_false]
      exact hm
    · rw [List.dropWhile_cons_of_neg hx] at h
      rcases p7CapAt_first_digit h with ⟨d1, rest, hcs, hd⟩
      have hx1 : x = d1 := by
        have := congrArg (fun l => List.headD l ' ') hcs
        simpa using this
      have hxs : xs = rest := by
        have := congrArg List.tail hcs
        simpa using this
      subst hx1; subst hxs
      rcases p6CapAt_of_p7CapAt hd h with ⟨m, hm⟩
      refine ⟨m, ?_⟩
      simp [searchP6, hd, hm]

/-- Whenever the last pattern `-\s*(\d{1,2})\s` matches somewhere in a
string, the generic fallback `\b(\d{1,2})\b` (tried before it) also matches
somewhere, so the last pattern is never the first to match. -/
theorem searchP6_isSome_of_searchP7 (cs : List Char) (prevW : Bool) {n : Nat}
    (h : searchP7 cs = some n) : ∃ m, searchP6 prevW cs = some m := by
  induction cs generalizing prevW with
  | nil => cases h
  | cons c cs ih =>
    by_cases hc : c = '-'
    · subst hc
      rw [show searchP7 ('-' :: cs) =
          (match p7CapAt (cs.dropWhile isSpaceCh) with
           | some n => some n
           | none => searchP7 cs) from by rw [searchP7]; rw [if_pos rfl]] at h
      have hdash : searchP6 prevW ('-' :: cs) = searchP6 false cs := by
        simp [searchP6, show isDigitCh '-' = false from rfl,
          show isWordCh '-' = false from rfl]
      cases h7 : p7CapAt (cs.dropWhile isSpaceCh) with
      | some k =>
        rcases searchP6_of_p7CapAt_dropWhile cs h7 with ⟨m, hm⟩
        refine ⟨m, ?_⟩
        rw [hdash]; exact hm
      | none =>
        rw [h7] at h
        rcases ih false h with ⟨m, hm⟩
        refine ⟨m, ?_⟩
        rw [hdash]; exact hm
    · rw [show searchP7 (c :: cs) = searchP7 cs from by
        rw [searchP7]; rw [if_neg hc]] at h
      by_cases hd : isDigitCh c = true
      · by_cases hw : prevW = true
        · rcases ih (isWordCh c) h with ⟨m, hm⟩
          refine ⟨m, ?_⟩
          simp [searchP6, hw]
          exact hm
        · replace hw : prevW = false := by
            cases prevW
            · rfl
            · exact absurd rfl hw
          subst hw
          cases h6 : p6CapAt c cs with
          | some m =>
            refine ⟨m, ?_⟩
            simp [searchP6, hd, h6]
          | none =>
            rcases ih (isWordCh c) h with ⟨m, hm⟩
            refine ⟨m, ?_⟩
            simp [searchP6, hd, h6]
            exact hm
      · rcases ih (isWordCh c) h with ⟨m, hm⟩
        refine ⟨m, ?_⟩
        have hd' : isDigitCh c = false := by
          cases hdd : isDigitCh c
          · rfl
          · exact absurd hdd hd
        simp [searchP6, hd']
        exact hm

/-- C2: rule ordering in episode-number inference.  `"Show - Ep.07 (1).mkv"`
is decided by the `Ep\.?(\d{1,2})` rule and yields episode 7 (the two
rules tried before it do not match), and the rule placed after the generic
standalone-number fallback can never decide an input: deleting it does not
change the function on any input, because whenever it matches the fallback
tried before it also matches. -/
theorem episode_rule_ordering :
    infer_episode_number_from_filename "Show - Ep.07 (1).mkv" =
      .ok ⟨7, "", ".mkv", "Show - Ep.07 (1).mkv", "", "", none, none⟩
    ∧ searchP1 "Show - Ep.07 (1).mkv".data = none
    ∧ searchP2 false "Show - Ep.07 (1).mkv".data = none
    ∧ searchP3 "Show - Ep.07 (1).mkv".data = some 7
    ∧ (∀ s : String, infer_episode_number_without_last_rule s =
        infer_episode_number_from_filename s) := by
  refine ⟨rfl, rfl, rfl, rfl, ?_⟩
  intro s
  unfold infer_episode_number_without_last_rule infer_episode_number_from_filename
  cases h1 : searchP1 s.data with
  | some n => rfl
  | none =>
  cases h2 : searchP2 false s.data with
  | some n => rfl
  | none =>
  cases h3 : searchP3 s.data with
  | some n => rfl
  | none =>
  cases h4 : searchP4 s.data with
  | some n => rfl
  | none =>
  by_cases h5 : p5Matches s.data = true
  · simp [h5]
  · cases h6 : searchP6 false s.data with
    | some n => simp [h5, h6]
    | none =>
      cases h7 : searchP7 s.data with
      | some n =>
        rcases searchP6_isSome_of_searchP7 s.data false h7 with ⟨m, hm⟩
        rw [hm] at h6; cases h6
      | none => simp [h5, h6, h7]

/-- C9: episode-number inference is not total over its declared error
contract.  On `"12 Pilot.mkv"` the first four rules do not match, the fifth
rule `^\d{1,2}\s+` matches, and since that rule has no capture group the
read of group 1 raises an uncaught `IndexError` instead of returning an
episode number or the no-match `ValueError`. -/
theorem episode_inference_index_error :
    infer_episode_number_from_filename "12 Pilot.mkv" = .indexError
    ∧ searchP1 "12 Pilot.mkv".data = none
    ∧ searchP2 false "12 Pilot.mkv".data = none
    ∧ searchP3 "12 Pilot.mkv".data = none
    ∧ searchP4 "12 Pilot.mkv".data = none
    ∧ p5Matches "12 Pilot.mkv".data = true := by
  exact ⟨rfl, rfl, rfl, rfl, rfl, rfl⟩

/-! ## The directory scanner (`list_supported_files`, claim C8) -/

/-- Python `str.lower` on the ASCII range. -/
def strToLower (s : String) : String := String.mk (s.data.map Char.toLower)

/-- The allow-list literal of `list_supported_files`, verbatim from the
source: `{".mp4", ".mkv", ".avi", ".m4v", "wmv"}`.  The last entry lacks the
leading dot. -/
def supported_extensions : List String := [".mp4", ".mkv", ".avi", ".m4v", "wmv"]

/-- A directory entry as seen by `os.listdir` plus the `os.path.isfile`
check on the joined path. -/
structure DirEntry where
  name : String
  isFile : Bool

/-- Embedding of `MediaFilesOrganizer.list_supported_files`.  The directory
contents are a parameter: `dir = none` models a path for which
`os.path.isdir` is false, `dir = some entries` the enumeration order of
`os.listdir`.  Raised `FileNotFoundError`s become `.error` with the
source's message. -/
def list_supported_files (dir : Option (List DirEntry)) (directory : String) :
    Except String (List String) :=
  match dir with
  | none => .error ("Error: The directory '" ++ directory ++ "' does not exist.")
  | some entries =>
    let media_files := (entries.filter (fun e =>
        e.isFile && supported_extensions.contains (strToLower (splitextExt e.name)))).map
      (fun e => pathJoin directory e.name)
    if media_files.isEmpty then
      .error ("No supported files (mp4, mkv, avi, m4v or wmv) found in directory '"
        ++ directory ++ "'.")
    else .ok media_files

/-- C8 (code bug): the allow-list entry for wmv lacks its leading dot while
the comparison key `splitext(file)[1].lower()` always begins with a dot, so
a `.wmv` file is never matched: a directory holding only `episode.wmv`
fails with the no-supported-files error whose own message lists wmv as
supported.  The other four extensions work, case-insensitively, the scanner
returns exactly the allowed files joined to the directory, and a missing
directory yields the directory-not-found error. -/
theorem scanner_excludes_wmv :
    splitextExt "episode.wmv" = ".wmv"
    ∧ supported_extensions.contains ".wmv" = false
    ∧ supported_extensions.contains "wmv" = true
    ∧ list_supported_files (some [⟨"episode.wmv", true⟩]) "d" =
        .error "No supported files (mp4, mkv, avi, m4v or wmv) found in directory 'd'."
    ∧ list_supported_files (some [⟨"a.mkv", true⟩, ⟨"b.txt", true⟩, ⟨"C.MP4", true⟩,
        ⟨"sub.avi", false⟩, ⟨"episode.wmv", true⟩]) "d" = .ok ["d/a.mkv", "d/C.MP4"]
    ∧ list_supported_files none "missing" =
        .error "Error: The directory 'missing' does not exist." := by
  exact ⟨rfl, rfl, rfl, rfl, rfl, rfl⟩

/-! ## Observable events of the `tvshow` flow -/

/-- One observable action of the `tvshow` flow: a printed warning, a printed
error, a confirmation prompt together with the user's answer, an attempted
`os.rename`, a file write, an image download, a `sys.exit`, or an uncaught
exception. -/
inductive Ev where
  | warn (msg : String)
  | err (msg : String)
  | confirm (prompt : String) (answer : Bool)
  | rename (src dst : String) (succeeded : Bool)
  | fwrite (path : String)
  | download (path : String)
  | exited (code : Nat)
  | crashed
deriving DecidableEq

/-- Renames are the `rename` events. -/
def isRenameEv : Ev → Bool
  | .rename _ _ _ => true
  | _ => false

/-- Mutating events: renames, file writes and downloads. -/
def isMutationEv : Ev → Bool
  | .rename _ _ _ => true
  | .fwrite _ => true
  | .download _ => true
  | _ => false

/-! ## File-to-episode matching (`tvshow`, lines 462-468) -/

/-- `next((ep for ep in data["episodes"] if ep["episode_number"] == ep_num), None)`
followed by the composer call and metadata attachment. -/
def match_episode (episodes : List Episode) (season : Nat) (suffix : Option String)
    (f : EpFile) : EpFile :=
  match episodes.find? (fun ep => ep.episode_number == f.episode_num) with
  | some ep =>
    { f with
      new_filename := (create_new_episode_filename ep season f.ext suffix).1,
      naked_filename := (create_new_episode_filename ep season f.ext suffix).2,
      data := some ep }
  | none => f

/-- The matching loop over the whole `episode_filelist`. -/
def match_files (data : Season) (season : Nat) (suffix : Option String)
    (files : List EpFile) : List EpFile :=
  files.map (match_episode data.episodes season suffix)

/-! ## The rename executor (`tvshow`, lines 479-494) -/

/-- `os.path.join(file["path"], file["original_filename"])`. -/
def srcPath (f : EpFile) : String := pathJoin f.path f.original_filename

/-- `os.path.join(file["path"], file["new_filename"])`. -/
def dstPath (f : EpFile) : String := pathJoin f.path f.new_filename

/-- Result of the rename loop: the filesystem (a list of existing paths),
the updated file records, the failure count, and the attempted-rename
events in order. -/
structure RenameResult where
  fs : List String
  files : List EpFile
  fails : Nat
  evs : List Ev

/-- The rename loop.  `ok src dst` tells whether `os.rename(src, dst)`
succeeds (environmental failures such as an unwritable target) — the
exception is caught, the file's status is set to `ERROR`, the failure count
grows, and the loop continues; on success the filesystem is updated and the
status is `OK`.  Files whose `new_filename` is empty are skipped
(`if file["new_filename"]:`). -/
def renameAll (ok : String → String → Bool) (fs : List String) :
    List EpFile → RenameResult
  | [] => ⟨fs, [], 0, []⟩
  | f :: rest =>
    if f.new_filename = "" then
      let r := renameAll ok fs rest
      ⟨r.fs, f :: r.files, r.fails, r.evs⟩
    else if ok (srcPath f) (dstPath f) then
      let r := renameAll ok ((fs.erase (srcPath f)) ++ [dstPath f]) rest
      ⟨r.fs, { f with status := some .OK } :: r.files, r.fails,
        .rename (srcPath f) (dstPath f) true :: r.evs⟩
    else
      let r := renameAll ok fs rest
      ⟨r.fs, { f with status := some .ERROR } :: r.files, r.fails + 1,
        .rename (srcPath f) (dstPath f) false :: r.evs⟩

/-- The per-file outcome of one rename attempt: it depends only on the
file's own source/target pair, never on the other files. -/
def statusAfterRename (ok : String → String → Bool) (f : EpFile) : EpFile :=
  if f.new_filename = "" then f
  else { f with status := some (if ok (srcPath f) (dstPath f) then .OK else .ERROR) }

theorem renameAll_files_eq_map (ok : String → String → Bool) (fs : List String)
    (files : List EpFile) :
    (renameAll ok fs files).files = files.map (statusAfterRename ok) := by
  induction files generalizing fs with
  | nil => rfl
  | cons f rest ih =>
    by_cases h : f.new_filename = ""
    · simp [renameAll, h, statusAfterRename, ih]
    · by_cases hok : ok (srcPath f) (dstPath f) = true
      · simp [renameAll, h, hok, statusAfterRename, ih]
      · simp [renameAll, h, hok, statusAfterRename, ih]

theorem renameAll_fails_eq (ok : String → String → Bool) (fs : List String)
    (files : List EpFile) :
    (renameAll ok fs files).fails =
      (files.filter (fun f =>
        !(f.new_filename == "") && !ok (srcPath f) (dstPath f))).length := by
  induction files generalizing fs with
  | nil => rfl
  | cons f rest ih =>
    by_cases h : f.new_filename = ""
    · simp [renameAll, h, List.filter_cons, ih]
    · by_cases hok : ok (srcPath f) (dstPath f) = true
      · simp [renameAll, h, hok, List.filter_cons, ih]
      · simp [renameAll, h, hok, List.filter_cons, ih]

theorem renameAll_skip_empty (ok : String → String → Bool) (fs : List String)
    (pre post : List EpFile) (f : EpFile) (h : f.new_filename = "") :
    (renameAll ok fs (pre ++ f :: post)).fs = (renameAll ok fs (pre ++ post)).fs
    ∧ (renameAll ok fs (pre ++ f :: post)).fails = (renameAll ok fs (pre ++ post)).fails
    ∧ (renameAll ok fs (pre ++ f :: post)).evs = (renameAll ok fs (pre ++ post)).evs := by
  induction pre generalizing fs with
  | nil =>
    simp only [List.nil_append]
    simp [renameAll, h]
  | cons g pre ih =>
    by_cases hg : g.new_filename = ""
    · simpa [renameAll, hg] using ih fs
    · by_cases hok : ok (srcPath g) (dstPath g) = true
      · simpa [renameAll, hg, hok] using ih ((fs.erase (srcPath g)) ++ [dstPath g])
      · simpa [renameAll, hg, hok] using ih fs

/-! ## Sidecar generation and thumbnail download guards
(`tvshow`, lines 514-535): both loops act only on entries whose `data`
field is set. -/

/-- The episode-NFO paths written by the sidecar loop, in order. -/
def nfo_episode_writes (files : List EpFile) : List String :=
  files.filterMap (fun e =>
    if e.data.isSome then some (pathJoin e.path (e.naked_filename ++ ".nfo")) else none)

/-- The thumbnail paths downloaded by the thumbnail loop, in order. -/
def thumb_downloads (files : List EpFile) : List String :=
  files.filterMap (fun e =>
    if e.data.isSome then some (pathJoin e.path (e.naked_filename ++ "-thumb.jpg")) else none)

theorem nfo_writes_skip (pre post : List EpFile) (f : EpFile) (h : f.data = none) :
    nfo_episode_writes (pre ++ f :: post) = nfo_episode_writes (pre ++ post) := by
  simp [nfo_episode_writes, List.filterMap_append, h]

theorem thumb_downloads_skip (pre post : List EpFile) (f : EpFile) (h : f.data = none) :
    thumb_downloads (pre ++ f :: post) = thumb_downloads (pre ++ post) := by
  simp [thumb_downloads, List.filterMap_append, h]

/-- C4: file-to-episode matching.  The record is looked up by exact equality
between the file's inferred episode number and the record's
`episode_number`, taking the first such record of the season's episode
list; on a match the composer's filenames and the metadata are attached; a
file with no matching record is left unchanged (in the flow it therefore
keeps its empty `new_filename` and `None` data), and such a file is skipped
by the rename loop (it is returned untouched and contributes nothing to the
filesystem, the failure count or the rename events), by the sidecar loop and
by the thumbnail loop. -/
theorem episode_matching_and_skips :
    (∀ (episodes : List Episode) (season : Nat) (suffix : Option String)
        (f : EpFile) (ep : Episode),
      episodes.find? (fun e => e.episode_number == f.episode_num) = some ep →
      match_episode episodes season suffix f =
        { f with
          new_filename := (create_new_episode_filename ep season f.ext suffix).1,
          naked_filename := (create_new_episode_filename ep season f.ext suffix).2,
          data := some ep })
    ∧ (∀ (episodes : List Episode) (season : Nat) (suffix : Option String) (f : EpFile),
      (∀ ep ∈ episodes, ep.episode_number ≠ f.episode_num) →
      match_episode episodes season suffix f = f)
    ∧ (∀ (ok : String → String → Bool) (fs : List String) (pre post : List EpFile)
        (f : EpFile), f.new_filename = "" →
      statusAfterRename ok f = f
      ∧ (renameAll ok fs (pre ++ f :: post)).files =
          (pre ++ f :: post).map (statusAfterRename ok)
      ∧ (renameAll ok fs (pre ++ f :: post)).fs = (renameAll ok fs (pre ++ post)).fs
      ∧ (renameAll ok fs (pre ++ f :: post)).fails =
          (renameAll ok fs (pre ++ post)).fails
      ∧ (renameAll ok fs (pre ++ f :: post)).evs = (renameAll ok fs (pre ++ post)).evs)
    ∧ (∀ (pre post : List EpFile) (f : EpFile), f.data = none →
      nfo_episode_writes (pre ++ f :: post) = nfo_episode_writes (pre ++ post))
    ∧ (∀ (pre post : List EpFile) (f : EpFile), f.data = none →
      thumb_downloads (pre ++ f :: post) = thumb_downloads (pre ++ post)) := by
  refine ⟨?_, ?_, ?_, nfo_writes_skip, thumb_downloads_skip⟩
  · intro episodes season suffix f ep hfind
    unfold match_episode
    rw [hfind]
  · intro episodes season suffix f hno
    unfold match_episode
    have : episodes.find? (fun e => e.episode_number == f.episode_num) = none := by
      rw [List.find?_eq_none]
      intro ep hep
      simpa using hno ep hep
    rw [this]
  · intro ok fs pre post f h
    rcases renameAll_skip_empty ok fs pre post f h with ⟨h1, h2, h3⟩
    exact ⟨by simp [statusAfterRename, h], renameAll_files_eq_map ok fs _, h1, h2, h3⟩

/-- Episode 1, "One", of sample series `A`. -/
def sampleEp1 : Episode :=
  { name := "One", series_name := "A", episode_name := "One", episode_number := 1,
    overview := "", community_rating := 0.0, air_date := "", still_url := "",
    actors := [], guest_stars := [], crew := [] }

/-- Episode 2, "Two", of sample series `A`. -/
def sampleEp2 : Episode :=
  { name := "Two", series_name := "A", episode_name := "Two", episode_number := 2,
    overview := "", community_rating := 0.0, air_date := "", still_url := "",
    actors := [], guest_stars := [], crew := [] }

/-- A parsed file that infers episode 1. -/
def sampleFile1 : EpFile := ⟨1, "/d", ".mkv", "a1.mkv", "", "", none, none⟩

/-- A parsed file that infers episode 3, for which no metadata exists. -/
def sampleFile3 : EpFile := ⟨3, "/d", ".mkv", "a3.mkv", "", "", none, none⟩

/-- Witness for `episode_matching_and_skips` at concrete inputs: episode 1
is matched (even when listed second) and composed; episode 3 has no record,
stays untouched, and is skipped by the rename, sidecar and thumbnail
steps. -/
theorem episode_matching_and_skips_witness :
    match_episode [sampleEp2, sampleEp1] 1 none sampleFile1 =
      { sampleFile1 with
        new_filename := (create_new_episode_filename sampleEp1 1 ".mkv" none).1,
        naked_filename := (create_new_episode_filename sampleEp1 1 ".mkv" none).2,
        data := some sampleEp1 }
    ∧ match_episode [sampleEp2, sampleEp1] 1 none sampleFile3 = sampleFile3
    ∧ (renameAll (fun _ _ => true) [] ([] ++ sampleFile3 :: [])).files =
        ([] ++ sampleFile3 :: []).map (statusAfterRename (fun _ _ => true))
    ∧ nfo_episode_writes ([] ++ sampleFile3 :: []) = nfo_episode_writes ([] ++ [])
    ∧ thumb_downloads ([] ++ sampleFile3 :: []) = thumb_downloads ([] ++ []) := by
  refine ⟨?_, ?_, ?_, ?_, ?_⟩
  · exact episode_matching_and_skips.1 [sampleEp2, sampleEp1] 1 none sampleFile1
      sampleEp1 rfl
  · exact episode_matching_and_skips.2.1 [sampleEp2, sampleEp1] 1 none sampleFile3
      (by decide)
  · exact (episode_matching_and_skips.2.2.1 (fun _ _ => true) [] [] [] sampleFile3
      rfl).2.1
  · exact episode_matching_and_skips.2.2.2.1 [] [] sampleFile3 rfl
  · exact episode_matching_and_skips.2.2.2.2 [] [] sampleFile3 rfl

/-- Three matched files ready for renaming. -/
def renFile1 : EpFile := ⟨1, "/d", ".mkv", "a1.mkv", "A.S01E01.One.mkv", "A.S01E01.One", none, none⟩

/-- Second of the three files; its target path will be made unwritable. -/
def renFile2 : EpFile := ⟨2, "/d", ".mkv", "a2.mkv", "A.S01E02.Two.mkv", "A.S01E02.Two", none, none⟩

/-- Third of the three files. -/
def renFile3 : EpFile := ⟨3, "/d", ".mkv", "a3.mkv", "A.S01E03.Three.mkv", "A.S01E03.Three", none, none⟩

/-- An `os.rename` oracle for which exactly `renFile2`'s target is
unwritable. -/
def unwritableSecond : String → String → Bool := fun _ dst => !(dst == dstPath renFile2)

/-- The on-disk files before the rename loop runs. -/
def renameFs0 : List String := [srcPath renFile1, srcPath renFile2, srcPath renFile3]

/-- C5: the rename executor attempts every rename independently.  Each
file's recorded status depends only on its own source/target pair (`OK` on
success, `ERROR` on a caught exception), so one failure never prevents
subsequent renames; the aggregate failure count equals the number of failed
attempts and is available after all attempts; and on the concrete
3-file run whose 2nd target is unwritable the statuses are
`[OK, ERROR, OK]`, the failure count is 1, and the final filesystem keeps
the first file's already-renamed target (no rollback) together with the
third's, while the second keeps its source name. -/
theorem rename_executor_spec :
    (∀ (ok : String → String → Bool) (fs : List String) (files : List EpFile),
      (renameAll ok fs files).files = files.map (statusAfterRename ok))
    ∧ (∀ (ok : String → String → Bool) (fs : List String) (files : List EpFile),
      (renameAll ok fs files).fails =
        (files.filter (fun f =>
          !(f.new_filename == "") && !ok (srcPath f) (dstPath f))).length)
    ∧ (renameAll unwritableSecond renameFs0 [renFile1, renFile2, renFile3]).files.map
        (fun f => f.status) = [some .OK, some .ERROR, some .OK]
    ∧ (renameAll unwritableSecond renameFs0 [renFile1, renFile2, renFile3]).fails = 1
    ∧ (renameAll unwritableSecond renameFs0 [renFile1, renFile2, renFile3]).fs =
        [srcPath renFile2, dstPath renFile1, dstPath renFile3]
    ∧ (renameAll unwritableSecond renameFs0 [renFile1, renFile2, renFile3]).evs =
        [.rename (srcPath renFile1) (dstPath renFile1) true,
         .rename (srcPath renFile2) (dstPath renFile2) false,
         .rename (srcPath renFile3) (dstPath renFile3) true] := by
  exact ⟨renameAll_files_eq_map, renameAll_fails_eq, by decide, by decide, by decide, by decide⟩

/-! ## The `tvshow` flow as a trace generator (claims C3, C10)

The interactive flow of `tvshow` is embedded as a pure function producing
the list of observable events.  External effects are parameters: the
metadata fetch result (`tmdb.fetch_tvshow_season` either returns a `Season`
or raises), the user's successive confirmation answers (`answers n` is the
answer to the n-th prompt of the run), the `os.rename` oracle and the
filesystem.  Plain informational prints are not part of the alphabet; the
local-database actor lookup only enriches the contents of the written
sidecar documents, which the event alphabet does not track, so it is not a
parameter. -/

/-- The flags of `tvshow` relevant to control flow: `args.season` and
`args.suffix` (`args.tmdb_id` only feeds the fetch, which is a
parameter). -/
structure TvArgs where
  tmdb_id : Nat
  season : Option Nat
  suffix : Option String

/-- Message of the per-file episode-inference `ValueError` warning. -/
def noMatchEpisodeMsg (file : String) : String :=
  "Could not infer episode number from filename: " ++ file

/-- Message of the batch warning after the inference loop. -/
def someNotInferredMsg (expected found : Nat) : String :=
  "Some episode numbers could not be inferred.\nExpected: " ++ toString expected
    ++ "\nFound: " ++ toString found

/-- Message of the episode-count mismatch warning (validation check 1). -/
def countMismatchMsg (epCount nFiles : Nat) : String :=
  "Number of episodes in metadata (" ++ toString epCount
    ++ ") does not match the number of files (" ++ toString nFiles ++ ")."

/-- Message of the season-number mismatch warning (validation check 2). -/
def seasonMismatchMsg (metaSeason season : Nat) : String :=
  "Season number in metadata (" ++ toString metaSeason
    ++ ") does not match the inferred season (" ++ toString season ++ ")."

/-- Prompt of the gate shown when some episode numbers were not inferable. -/
def epGatePrompt : String :=
  "Some episode numbers could not be inferred. Do you want to proceed?"

/-- Prompt of the gate shown when a metadata validation check warned. -/
def metadataGatePrompt : String :=
  "Some metadata mismatch was found. Do you want to proceed with the above settings?"

/-- Prompt of the proceed confirmations (shown when validation raised no
warning, and again before the rename loop). -/
def proceedPrompt : String :=
  "Do you wish to proceed with file renaming and metadata file creation?"

/-- Prompt of the sidecar-generation confirmation. -/
def nfoPrompt : String := "Do you wish to proceed with metadata NFO file generation?"

/-- Prompt of the thumbnail-download confirmation. -/
def thumbPrompt : String := "Do you wish to download episodes thumbnails?"

/-- Season resolution (`tvshow` lines 356-374): `if args.season:` is true
for a non-`None`, non-zero season, in which case the flag seeds the
comparison; a `ValueError` prints the error and exits with code 1. -/
def phaseSeason (args : TvArgs) (media_files : List String) : Except (List Ev) Nat :=
  let expected : Option Nat :=
    match args.season with
    | some s => if s = 0 then none else some s
    | none => none
  match infer_season_from_filenames media_files expected with
  | .ok s => .ok s
  | .error e => .error [.err e, .exited 1]

/-- The per-file episode-inference loop (`tvshow` lines 379-391): a
`ValueError` is caught and printed as a warning, the file is dropped from
the list; an `IndexError` is not caught and crashes the process. -/
def phaseEpInferGo : List String → List Ev → List EpFile →
    List Ev × Option (List EpFile)
  | [], evs, acc => (evs, some acc)
  | f :: rest, evs, acc =>
    match infer_episode_number_from_filename f with
    | .ok e => phaseEpInferGo rest evs (acc ++ [e])
    | .valueError => phaseEpInferGo rest (evs ++ [.warn (noMatchEpisodeMsg f)]) acc
    | .indexError => (evs ++ [.crashed], none)

/-- Episode inference over all media files. -/
def phaseEpInfer (media_files : List String) : List Ev × Option (List EpFile) :=
  phaseEpInferGo media_files [] []

/-- Remainder of the flow after the rename loop (`tvshow` lines 496-537):
the sidecar gate, the `season.nfo` write and the per-episode sidecar
writes, then the thumbnail gate and the downloads, then `sys.exit(0)` at
the end of `main`. -/
def afterRename (directory : String) (files : List EpFile) (answers : Nat → Bool)
    (k : Nat) : List Ev :=
  if answers k then
    [.confirm nfoPrompt true, .fwrite (pathJoin directory "season.nfo")]
      ++ (nfo_episode_writes files).map Ev.fwrite
      ++ (if answers (k + 1) then
            [.confirm thumbPrompt true] ++ (thumb_downloads files).map Ev.download
              ++ [.exited 0]
          else [.confirm thumbPrompt false, .exited 0])
  else [.confirm nfoPrompt false, .exited 0]

/-- Remainder of the flow after validation (`tvshow` lines 462-494): the
matching loop, the rename-table confirmation, and the rename loop. -/
def afterValidate (directory : String) (args : TvArgs) (season : Nat)
    (epList : List EpFile) (data : Season) (answers : Nat → Bool) (k : Nat)
    (renameOk : String → String → Bool) (fs0 : List String) : List Ev :=
  let matched := match_files data season args.suffix epList
  if answers k then
    let rr := renameAll renameOk fs0 matched
    [.confirm proceedPrompt true] ++ rr.evs
      ++ afterRename directory rr.files answers (k + 1)
  else [.confirm proceedPrompt false, .exited 0]

/-- Remainder of the flow after episode inference (`tvshow` lines 410-460):
the metadata fetch (a raise prints the error and exits 1), then the two
validation checks; if either warns, the warning events precede the
metadata-mismatch gate; otherwise the proceed confirmation of line 457 is
shown. -/
def afterEpInfer (directory : String) (args : TvArgs) (season : Nat)
    (epList : List EpFile) (nFiles : Nat) (fetch : Except String Season)
    (answers : Nat → Bool) (k : Nat) (renameOk : String → String → Bool)
    (fs0 : List String) : List Ev :=
  match fetch with
  | .error e => [.err e, .exited 1]
  | .ok data =>
    let evsW :=
      (if data.episode_count = nFiles then []
       else [Ev.warn (countMismatchMsg data.episode_count nFiles)])
      ++ (if data.season_number = season then []
          else [Ev.warn (seasonMismatchMsg data.season_number season)])
    if data.episode_count = nFiles ∧ data.season_number = season then
      if answers k then
        [.confirm proceedPrompt true]
          ++ afterValidate directory args season epList data answers (k + 1) renameOk fs0
      else [.confirm proceedPrompt false, .exited 0]
    else
      if answers k then
        evsW ++ [.confirm metadataGatePrompt true]
          ++ afterValidate directory args season epList data answers (k + 1) renameOk fs0
      else evsW ++ [.confirm metadataGatePrompt false, .exited 0]

/-- The whole `tvshow` flow (plus the final `sys.exit(0)` of `main`) as an
event trace. -/
def tvshowTrace (args : TvArgs) (directory : String) (media_files : List String)
    (fetch : Except String Season) (answers : Nat → Bool)
    (renameOk : String → String → Bool) (fs0 : List String) : List Ev :=
  match phaseSeason args media_files with
  | .error evs => evs
  | .ok season =>
    match phaseEpInfer media_files with
    | (evsB, none) => evsB
    | (evsB, some epList) =>
      if epList.length = media_files.length then
        evsB ++ afterEpInfer directory args season epList media_files.length fetch
          answers 0 renameOk fs0
      else
        let evsB2 := evsB ++ [.warn (someNotInferredMsg media_files.length epList.length)]
        if answers 0 then
          evsB2 ++ [.confirm epGatePrompt true]
            ++ afterEpInfer directory args season epList media_files.length fetch
              answers 1 renameOk fs0
        else evsB2 ++ [.confirm epGatePrompt false, .exited 0]

/-- C10: episode-number inference searches the entire string it receives,
not only the basename.  The basename `Finale.mkv` matches no rule
(`ValueError`), but the scanner returns paths joined with the directory, and
the flow feeds those joined paths to the inference, so for
`/tv/Season 9/Finale.mkv` the standalone `9` of the directory component is
returned as the episode number instead of failing. -/
theorem inference_reads_directory_component :
    infer_episode_number_from_filename "Finale.mkv" = .valueError
    ∧ infer_episode_number_from_filename "/tv/Season 9/Finale.mkv" =
        .ok ⟨9, "/tv/Season 9", ".mkv", "Finale.mkv", "", "", none, none⟩
    ∧ list_supported_files (some [⟨"Finale.mkv", true⟩]) "/tv/Season 9" =
        .ok ["/tv/Season 9/Finale.mkv"]
    ∧ phaseEpInfer ["/tv/Season 9/Finale.mkv"] =
        ([], some [⟨9, "/tv/Season 9", ".mkv", "Finale.mkv", "", "", none, none⟩]) := by
  exact ⟨rfl, rfl, rfl, rfl⟩

/-! ## Lemmas for the validation gates (claim C3) -/

theorem head_mem_pre_of_decomp {c e : Ev} {rest pre post : List Ev}
    (hdec : c :: rest = pre ++ e :: post) (hc : isMutationEv c = false)
    (he : isMutationEv e = true) : c ∈ pre := by
  cases pre with
  | nil =>
    simp only [List.nil_append] at hdec
    have : c = e := (List.cons.injEq .. ▸ hdec).1
    rw [this, he] at hc
    cases hc
  | cons p pre' =>
    have : c = p := by
      have := congrArg (fun l => List.headD l c) hdec
      simpa using this
    rw [this]
    exact List.mem_cons_self p pre'

/-- C3: the validation gates run before any mutation.  In a run that
resolves a season and infers an episode number for every file, with the
fetch returning `data`: (i) when the remote episode count differs from the
on-disk file count, the trace splits into a prefix containing the mismatch
warning (naming both counts) and the metadata-mismatch confirmation gate
and containing no rename, followed by the rest — so warning and gate come
before any rename; (ii) declining that gate (the first prompt of such a
run) produces a trace with no rename at all, ending in `sys.exit(0)`;
(iii) when neither validation check warns, every mutating event is preceded
by an accepted proceed confirmation; and (iv) the proceed prompt differs
from the mismatch-gate prompt. -/
theorem validation_gates_before_rename (args : TvArgs) (directory : String)
    (media_files : List String) (answers : Nat → Bool)
    (renameOk : String → String → Bool) (fs0 : List String) (data : Season)
    (epList : List EpFile) (s : Nat)
    (hseason : phaseSeason args media_files = .ok s)
    (hinfer : phaseEpInfer media_files = ([], some epList))
    (hlen : epList.length = media_files.length) :
    (data.episode_count ≠ media_files.length →
      (∃ P R, tvshowTrace args directory media_files (.ok data) answers renameOk fs0
          = P ++ R
        ∧ Ev.warn (countMismatchMsg data.episode_count media_files.length) ∈ P
        ∧ (∃ b, Ev.confirm metadataGatePrompt b ∈ P)
        ∧ ∀ x ∈ P, isRenameEv x = false)
      ∧ (answers 0 = false →
          (∀ x ∈ tvshowTrace args directory media_files (.ok data) answers renameOk fs0,
            isRenameEv x = false)
          ∧ ∃ t, tvshowTrace args directory media_files (.ok data) answers renameOk fs0
              = t ++ [Ev.exited 0]))
    ∧ (data.episode_count = media_files.length → data.season_number = s →
      ∀ (pre post : List Ev) (e : Ev),
        tvshowTrace args directory media_files (.ok data) answers renameOk fs0 =
          pre ++ e :: post →
        isMutationEv e = true → Ev.confirm proceedPrompt true ∈ pre)
    ∧ proceedPrompt ≠ metadataGatePrompt := by
  have htr : tvshowTrace args directory media_files (.ok data) answers renameOk fs0 =
      afterEpInfer directory args s epList media_files.length (.ok data) answers 0
        renameOk fs0 := by
    simp [tvshowTrace, hseason, hinfer, hlen]
  refine ⟨?_, ?_, by decide⟩
  · intro hmis
    have hcond : ¬(data.episode_count = media_files.length ∧ data.season_number = s) :=
      fun h => hmis h.1
    constructor
    · by_cases hsn : data.season_number = s
      · cases han : answers 0 with
        | false =>
          refine ⟨[Ev.warn (countMismatchMsg data.episode_count media_files.length),
              Ev.confirm metadataGatePrompt false, Ev.exited 0], [], ?_, ?_, ⟨false, ?_⟩, ?_⟩
          · rw [htr]
            simp [afterEpInfer, hcond, hmis, hsn, han]
          · simp
          · simp
          · intro x hx
            fin_cases hx <;> rfl
        | true =>
          refine ⟨[Ev.warn (countMismatchMsg data.episode_count media_files.length),
              Ev.confirm metadataGatePrompt true],
              afterValidate directory args s epList data answers 1 renameOk fs0,
              ?_, ?_, ⟨true, ?_⟩, ?_⟩
          · rw [htr]
            simp [afterEpInfer, hcond, hmis, hsn, han]
          · simp
          · simp
          · intro x hx
            fin_cases hx <;> rfl
      · cases han : answers 0 with
        | false =>
          refine ⟨[Ev.warn (countMismatchMsg data.episode_count media_files.length),
              Ev.warn (seasonMismatchMsg data.season_number s),
              Ev.confirm metadataGatePrompt false, Ev.exited 0], [], ?_, ?_, ⟨false, ?_⟩, ?_⟩
          · rw [htr]
            simp [afterEpInfer, hcond, hmis, hsn, han]
          · simp
          · simp
          · intro x hx
            fin_cases hx <;> rfl
        | true =>
          refine ⟨[Ev.warn (countMismatchMsg data.episode_count media_files.length),
              Ev.warn (seasonMismatchMsg data.season_number s),
              Ev.confirm metadataGatePrompt true],
              afterValidate directory args s epList data answers 1 renameOk fs0,
              ?_, ?_, ⟨true, ?_⟩, ?_⟩
          · rw [htr]
            simp [afterEpInfer, hcond, hmis, hsn, han]
          · simp
          · simp
          · intro x hx
            fin_cases hx <;> rfl
    · intro han
      by_cases hsn : data.season_number = s
      · have htr2 : tvshowTrace args directory media_files (.ok data) answers renameOk fs0
            = [Ev.warn (countMismatchMsg data.episode_count media_files.length),
               Ev.confirm metadataGatePrompt false, Ev.exited 0] := by
          rw [htr]
          simp [afterEpInfer, hcond, hmis, hsn, han]
        rw [htr2]
        refine ⟨?_, ⟨[Ev.warn (countMismatchMsg data.episode_count media_files.length),
            Ev.confirm metadataGatePrompt false], rfl⟩⟩
        intro x hx
        fin_cases hx <;> rfl
      · have htr2 : tvshowTrace args directory media_files (.ok data) answers renameOk fs0
            = [Ev.warn (countMismatchMsg data.episode_count media_files.length),
               Ev.warn (seasonMismatchMsg data.season_number s),
               Ev.confirm metadataGatePrompt false, Ev.exited 0] := by
          rw [htr]
          simp [afterEpInfer, hcond, hmis, hsn, han]
        rw [htr2]
        refine ⟨?_, ⟨[Ev.warn (countMismatchMsg data.episode_count media_files.length),
            Ev.warn (seasonMismatchMsg data.season_number s),
            Ev.confirm metadataGatePrompt false], rfl⟩⟩
        intro x hx
        fin_cases hx <;> rfl
  · intro h1 h2 pre post e hdec hmut
    rw [htr] at hdec
    cases han : answers 0 with
    | false =>
      have htr2 : afterEpInfer directory args s epList media_files.length (.ok data)
          answers 0 renameOk fs0 = [Ev.confirm proceedPrompt false, Ev.exited 0] := by
        simp [afterEpInfer, h1, h2, han]
      rw [htr2] at hdec
      have hmem : e ∈ [Ev.confirm proceedPrompt false, Ev.exited 0] := by
        rw [hdec]
        exact List.mem_append_right pre (List.mem_cons_self e post)
      fin_cases hmem <;> simp [isMutationEv] at hmut
    | true =>
      have htr2 : afterEpInfer directory args s epList media_files.length (.ok data)
          answers 0 renameOk fs0 = Ev.confirm proceedPrompt true ::
            afterValidate directory args s epList data answers 1 renameOk fs0 := by
        simp [afterEpInfer, h1, h2, han]
      rw [htr2] at hdec
      exact head_mem_pre_of_decomp hdec rfl hmut

/-- `-s 1` with no suffix. -/
def c3Args : TvArgs := ⟨101, some 1, none⟩

/-- The two on-disk files of the mismatch scenario. -/
def c3Files : List String := ["/d/Show.S01E01.mkv", "/d/Show.S01E02.mkv"]

/-- Parse of the first scenario file. -/
def c3File1 : EpFile := ⟨1, "/d", ".mkv", "Show.S01E01.mkv", "", "", none, none⟩

/-- Parse of the second scenario file. -/
def c3File2 : EpFile := ⟨2, "/d", ".mkv", "Show.S01E02.mkv", "", "", none, none⟩

/-- Remote metadata reporting `episode_count = 3` for the 2-file directory. -/
def c3Season : Season :=
  { name := "S1", season_name := "Season 1", season_number := 1, overview := "",
    community_rating := 0.0, episode_count := 3, release_date := "", poster_url := "",
    episodes := [sampleEp1, sampleEp2], series_name := "A", genres := [],
    actors := [], crew := [] }

/-- Witness for `validation_gates_before_rename`: two files, remote
episode count 3, the user declining the mismatch gate — the run performs no
rename and ends with `sys.exit(0)`. -/
theorem validation_gates_before_rename_witness :
    (∀ x ∈ tvshowTrace c3Args "/d" c3Files (.ok c3Season) (fun _ => false)
        (fun _ _ => true) [], isRenameEv x = false)
    ∧ ∃ t, tvshowTrace c3Args "/d" c3Files (.ok c3Season) (fun _ => false)
        (fun _ _ => true) [] = t ++ [Ev.exited 0] := by
  have h := validation_gates_before_rename c3Args "/d" c3Files (fun _ => false)
    (fun _ _ => true) [] c3Season [c3File1, c3File2] 1 rfl rfl rfl
  exact (h.1 (by decide)).2 rfl
